import Mathlib

/-!
Verification of the Bluegrey pairs-trading bot against its specification.

The development shallowly embeds the core of the repository:
* `strategies/kalman_strategy.py` (`KalmanPairStrategy`): the adaptive
  cointegration estimator (online Kalman filter) and the signal-to-position
  state machine, embedded as `kalmanUpdate` (the numeric filter step, exact
  rational arithmetic in place of IEEE doubles), `signalStep` (the
  entry/exit logic of `on_tick`, polymorphic over the ordered field used
  for the deviation score) and `on_tickFull` (the whole of
  `KalmanPairStrategy.on_tick`, with the z-score over the reals since it
  divides by a square root).
* `src/risk.py` (`RiskManager.check`): embedded over a model `PyVal` of the
  Python dynamic values the function is given, with Python's equality
  semantics between objects and strings.
* `src/backtester.py` (`BacktestEngine.run`) and `src/main.py`
  (`TradingEngine.on_tick`): the two driver loops, embedded as `btRun`
  (historical replay) and `liveRun` (live tick pipeline with the readiness
  gate, the risk gate and the execution hand-off).

Machine-float behaviour is idealized to exact arithmetic (the spec's own
covariance invariant is stated "in exact arithmetic").  Rational division
by zero is the Lean convention `q / 0 = 0`; no theorem below evaluates a
Kalman step at innovation variance exactly 0.
-/

namespace Bluegrey

/-- A 2-vector, the estimator state `[intercept, slope]` of
`kalman_strategy.py` (`self.state_mean = np.zeros(2)`). -/
structure Vec2 where
  x0 : ℚ
  x1 : ℚ
deriving DecidableEq, Repr

/-- A 2x2 matrix, the estimator covariance of `kalman_strategy.py`
(`self.state_cov`); `a b / c d` are the entries `[0][0] [0][1] / [1][0] [1][1]`. -/
structure Mat2 where
  a : ℚ
  b : ℚ
  c : ℚ
  d : ℚ
deriving DecidableEq, Repr

/-- The configuration read by `KalmanPairStrategy.__init__` from `params`:
`entry_z`, `exit_z`, `base_qty`, `delta` (process noise `Q = delta * I`) and
`R` (measurement noise). -/
structure KalmanParams where
  entry_threshold : ℚ
  exit_threshold : ℚ
  qty : ℚ
  delta : ℚ
  R : ℚ
deriving DecidableEq, Repr

/-- The mutable state of a `KalmanPairStrategy` instance: `self.state_mean`,
`self.state_cov` and `self.position` (0 flat, 1 long spread, -1 short spread). -/
structure KalmanState where
  state_mean : Vec2
  state_cov : Mat2
  position : ℤ
deriving DecidableEq, Repr

/-- The raw `params` dictionary fields consulted by
`KalmanPairStrategy.__init__` (each `params.get(key, default)`). -/
structure PyParams where
  entry_z : Option ℚ
  exit_z : Option ℚ
  base_qty : Option ℚ
  delta : Option ℚ
  R : Option ℚ
deriving DecidableEq, Repr

/-- `KalmanPairStrategy.__init__`: reads the thresholds and noise settings
with their defaults (`entry_z` 2.0, `exit_z` 0.5, `base_qty` 10, `delta`
1e-4, `R` 1e-3) and initializes `state_mean = zeros(2)`,
`state_cov = ones((2,2))`, `position = 0`.  The constructor performs no
validation whatsoever: it is total in the configuration. -/
def KalmanPairStrategy.init (ps : PyParams) : KalmanParams × KalmanState :=
  (⟨ps.entry_z.getD 2, ps.exit_z.getD (1/2), ps.base_qty.getD 10,
    ps.delta.getD (1/10000), ps.R.getD (1/1000)⟩,
   ⟨⟨0, 0⟩, ⟨1, 1, 1, 1⟩, 0⟩)

/-- The intermediate and final values of one numeric Kalman step,
`kalman_strategy.py` lines 58-86 (predict step, observation, innovation,
gain, posterior mean and covariance). -/
structure KalmanUpdate where
  state_cov_prior : Mat2
  y_hat : ℚ
  error : ℚ
  S : ℚ
  K : Vec2
  state_mean : Vec2
  state_cov : Mat2
deriving DecidableEq, Repr

/-- One numeric step of the filter, `KalmanPairStrategy.on_tick` lines
58-86, with `H = [1, x_price]`:
`state_cov_prior = state_cov + Q`, `y_hat = H . state_mean`,
`error = y_price - y_hat`, `S = H . (state_cov_prior . H^T) + R`,
`K = state_cov_prior . H^T / S`, posterior
`state_mean = state_mean + K * error` and
`state_cov = state_cov_prior - outer(K, H) @ state_cov_prior`. -/
def kalmanUpdate (p : KalmanParams) (st : KalmanState) (y_price x_price : ℚ) :
    KalmanUpdate :=
  let P := st.state_cov
  let m := st.state_mean
  let Pp : Mat2 := ⟨P.a + p.delta, P.b, P.c, P.d + p.delta⟩
  let y_hat := 1 * m.x0 + x_price * m.x1
  let error := y_price - y_hat
  let v0 := Pp.a * 1 + Pp.b * x_price
  let v1 := Pp.c * 1 + Pp.d * x_price
  let S := (1 * v0 + x_price * v1) + p.R
  let K0 := v0 / S
  let K1 := v1 / S
  let mean' : Vec2 := ⟨m.x0 + K0 * error, m.x1 + K1 * error⟩
  let cov' : Mat2 :=
    ⟨Pp.a - (K0 * 1 * Pp.a + K0 * x_price * Pp.c),
     Pp.b - (K0 * 1 * Pp.b + K0 * x_price * Pp.d),
     Pp.c - (K1 * 1 * Pp.a + K1 * x_price * Pp.c),
     Pp.d - (K1 * 1 * Pp.b + K1 * x_price * Pp.d)⟩
  ⟨Pp, y_hat, error, S, ⟨K0, K1⟩, mean', cov'⟩

/-- The two legs of the pair: `instruments[self.y_key]` and
`instruments[self.x_key]` (the contract objects attached to orders). -/
inductive Leg where
  | leg1
  | leg2
deriving DecidableEq, Repr

/-- One entry of `StrategySignal.orders`, the dict built by
`StrategySignal.add_order` in `strategies/base.py`:
`{contract, action, qty, type}` with `type` defaulting to `MKT`. -/
structure OrderInstr (K : Type) where
  contract : Leg
  action : String
  qty : K
  order_type : String
deriving DecidableEq, Repr

/-- The metadata dict attached at `kalman_strategy.py` lines 151-158:
`{z_score, beta, predicted_y, error}`. -/
structure SignalMeta (K : Type) where
  z_score : K
  beta : K
  predicted_y : K
  error : K
deriving DecidableEq, Repr

/-- `StrategySignal` from `strategies/base.py`: a decision kind, an ordered
list of order instructions, and the metadata (`none` while the Python
`meta` dict is still the empty `{}`). -/
structure StrategySignal (K : Type) where
  signal_type : String
  orders : List (OrderInstr K)
  meta : Option (SignalMeta K)
deriving DecidableEq, Repr

/-- Python's `int(q)`: truncation toward zero, as applied to
`self.qty * abs(current_beta)` for the hedge leg quantity. -/
def pyInt {K : Type} [LinearOrderedField K] [FloorRing K] (q : K) : ℤ :=
  if 0 ≤ q then ⌊q⌋ else ⌈q⌉

/-- The signal/state-machine portion of `KalmanPairStrategy.on_tick`
(lines 98-149), taking the already computed deviation score `z` and hedge
ratio `beta`.  Returns the emitted signal (metadata not yet attached,
mirroring the Python flow where `signal.meta` is set afterwards) and the
new `self.position`.  Polymorphic in the ordered field so that it can be
run both over `ℚ` (decidable concrete runs) and inside `on_tickFull`
over `ℝ`. -/
def signalStep {K : Type} [LinearOrderedField K] [FloorRing K]
    (entryT exitT qty : K) (position : ℤ) (z beta : K) :
    Option (StrategySignal K) × ℤ :=
  if position = 0 then
    if z < -entryT then
      let hedge_qty : K := (pyInt (qty * |beta|) : ℤ)
      (some ⟨"ENTRY_LONG_SPREAD",
             [⟨Leg.leg1, "BUY", qty, "MKT"⟩, ⟨Leg.leg2, "SELL", hedge_qty, "MKT"⟩],
             none⟩, 1)
    else if z > entryT then
      let hedge_qty : K := (pyInt (qty * |beta|) : ℤ)
      (some ⟨"ENTRY_SHORT_SPREAD",
             [⟨Leg.leg1, "SELL", qty, "MKT"⟩, ⟨Leg.leg2, "BUY", hedge_qty, "MKT"⟩],
             none⟩, -1)
    else (none, position)
  else
    if |z| < exitT then
      let action_y := if position = 1 then "SELL" else "BUY"
      let hedge_qty : K := (pyInt (qty * |beta|) : ℤ)
      let action_x := if position = 1 then "BUY" else "SELL"
      (some ⟨"EXIT_ALL",
             [⟨Leg.leg1, action_y, qty, "MKT"⟩, ⟨Leg.leg2, action_x, hedge_qty, "MKT"⟩],
             none⟩, 0)
    else (none, position)

/-- A tick as seen by the strategy: the latest `leg_1` and `leg_2` prices,
`none` when the corresponding column is absent from the data frame. -/
abbrev Tick : Type := Option ℚ × Option ℚ

/-- Everything computed by one call of `KalmanPairStrategy.on_tick`:
the state after the call, the returned signal, and the locals `z_score`
and `current_beta` (`none` on the paths where Python never computes
them: missing data, or the `S <= 0` early return). -/
structure TickOutcome where
  state : KalmanState
  signal : Option (StrategySignal ℝ)
  z : Option ℝ
  beta : Option ℚ

/-- The whole of `KalmanPairStrategy.on_tick`.  Step 1 returns `None`
untouched when a required column is missing; steps 2-3 run the numeric
filter `kalmanUpdate`, unconditionally overwriting `state_mean` and
`state_cov` with the posterior; step 4 returns `None` (position kept)
when `S <= 0`, otherwise computes `z_score = error / sqrt(S)` and
`current_beta = state_mean[1]`; step 5 is `signalStep`; step 6 attaches
the metadata to the emitted signal. -/
noncomputable def on_tickFull (p : KalmanParams) (st : KalmanState)
    (data : Tick) : TickOutcome :=
  match data.1, data.2 with
  | some y_price, some x_price =>
    let u := kalmanUpdate p st y_price x_price
    if u.S ≤ 0 then
      ⟨⟨u.state_mean, u.state_cov, st.position⟩, none, none, none⟩
    else
      let z : ℝ := (u.error : ℝ) / Real.sqrt (u.S : ℝ)
      let beta := u.state_mean.x1
      let r := signalStep (p.entry_threshold : ℝ) (p.exit_threshold : ℝ)
        (p.qty : ℝ) st.position z (beta : ℝ)
      let sig := r.1.map fun s =>
        { s with meta := some ⟨z, (beta : ℝ), (u.y_hat : ℝ), (u.error : ℝ)⟩ }
      ⟨⟨u.state_mean, u.state_cov, r.2⟩, sig, some z, some beta⟩
  | _, _ => ⟨st, none, none, none⟩

/-- `KalmanPairStrategy.on_tick` as the caller sees it: the new state and
the returned `Optional[StrategySignal]`. -/
noncomputable def on_tick (p : KalmanParams) (st : KalmanState) (data : Tick) :
    KalmanState × Option (StrategySignal ℝ) :=
  ((on_tickFull p st data).state, (on_tickFull p st data).signal)

/-- A Python dynamic value of the kinds `RiskManager.check` is handed:
`None`, a plain string, or a `StrategySignal` object of some type `σ`. -/
inductive PyVal (σ : Type) where
  | pnone
  | str (s : String)
  | sig (x : σ)
deriving DecidableEq, Repr

/-- Python `value == "some string"`: equal strings compare equal; `None`
and arbitrary objects (which define no custom `__eq__`) compare unequal
to every string. -/
def pyEqStr {σ : Type} (v : PyVal σ) (s : String) : Bool :=
  match v with
  | .str t => t = s
  | _ => false

/-- Python `value in list_of_strings`: membership via `==` against each
element. -/
def pyInStrList {σ : Type} (v : PyVal σ) (l : List String) : Bool :=
  l.any (pyEqStr v)

/-- Python `value is None` (the truth of `signal is None`). -/
def isNone {σ : Type} : PyVal σ → Bool
  | .pnone => true
  | _ => false

namespace RiskManager

/-- The `allowed_signals` list of `src/risk.py`. -/
def allowed_signals : List String := ["LONG_SPREAD", "SHORT_SPREAD", "EXIT"]

/-- `RiskManager.check` from `src/risk.py`: returns `False` when the
argument is `None` or `== "HOLD"`, `False` when it is not `in
allowed_signals` (Python string comparison against the value itself, not
against any `signal_type` attribute), and `True` otherwise.  The function
only reads its argument; it is pure. -/
def check {σ : Type} (signal : PyVal σ) : Bool :=
  if isNone signal || pyEqStr signal "HOLD" then false
  else if !pyInStrList signal allowed_signals then false
  else true

end RiskManager

/-- The historical driver loop, `BacktestEngine.run` lines 55-62: for each
row of the aligned universe, call `self.strategy.on_tick(row)` and record
the emission when one is produced.  Returns the final strategy state and
the ordered sequence of emissions. -/
noncomputable def btRun (p : KalmanParams) (st : KalmanState) :
    List Tick → KalmanState × List (StrategySignal ℝ)
  | [] => (st, [])
  | t :: ts =>
    let o := on_tickFull p st t
    let rest := btRun p o.state ts
    (rest.1, (match o.signal with | some s => [s] | none => []) ++ rest.2)

/-- The live driver loop, `TradingEngine.on_tick` of `src/main.py` folded
over a list of ticks: each tick is processed only when the data manager is
ready (every required price known); the strategy's signal is handed to the
monitor, and routed to the executor only when it has orders and
`RiskManager.check` admits it.  Returns the final strategy state, the
ordered sequence of emissions handed to the monitor, and the subsequence
actually admitted to execution. -/
noncomputable def liveRun (p : KalmanParams) (st : KalmanState) :
    List Tick → KalmanState × List (StrategySignal ℝ) × List (StrategySignal ℝ)
  | [] => (st, [], [])
  | t :: ts =>
    if t.1.isSome && t.2.isSome then
      let o := on_tickFull p st t
      let rest := liveRun p o.state ts
      match o.signal with
      | none => (rest.1, rest.2.1, rest.2.2)
      | some s =>
        (rest.1, s :: rest.2.1,
         (if s.orders ≠ [] ∧ RiskManager.check (PyVal.sig s) then [s] else [])
           ++ rest.2.2)
    else
      liveRun p st ts

namespace BacktestEngine

/-- The data-loading phase of `BacktestEngine.run` lines 34-42: load each
instrument key from the store; on the first `None` the run aborts
(`print("❌ Missing data..."); return`). -/
def loadAll (store : String → Option (List ℚ)) :
    List String → Option (List (String × List ℚ))
  | [] => some []
  | k :: ks =>
    match store k with
    | none => none
    | some df => (loadAll store ks).map ((k, df) :: ·)

/-- `BacktestEngine.run`: load every configured instrument (aborting with
no result when any is missing), align the loaded frames into one universe
via the pandas outer-join/forward-fill/dropna pipeline (abstracted as the
`align` collaborator), abort when the aligned universe is empty, and
otherwise replay it through the event loop `btRun`. -/
noncomputable def run (p : KalmanParams) (st : KalmanState)
    (store : String → Option (List ℚ)) (keys : List String)
    (align : List (String × List ℚ) → List Tick) :
    Option (KalmanState × List (StrategySignal ℝ)) :=
  match loadAll store keys with
  | none => none
  | some dfs =>
    let uni := align dfs
    if uni = [] then none
    else some (btRun p st uni)

end BacktestEngine

/-- Symmetric positive semi-definiteness of a 2x2 rational matrix, by the
standard minor characterization: equal off-diagonal entries, nonnegative
diagonal, nonnegative determinant. -/
def Mat2.PSD (M : Mat2) : Prop :=
  M.b = M.c ∧ 0 ≤ M.a ∧ 0 ≤ M.d ∧ M.b * M.c ≤ M.a * M.d

instance (M : Mat2) : Decidable M.PSD := by
  unfold Mat2.PSD; infer_instance

/-- The signal/state-machine logic driven by a synthetic deviation-score
sequence (the spec's hysteresis test): each tick runs `signalStep` on the
next score, threading `self.position`; returns, per tick, the position
after the tick and the emission produced on it. -/
def runDeviations (entryT exitT qty beta : ℚ) :
    ℤ → List ℚ → List (ℤ × Option (StrategySignal ℚ))
  | _, [] => []
  | pos, z :: zs =>
    let r := signalStep entryT exitT qty pos z beta
    (r.2, r.1) :: runDeviations entryT exitT qty beta r.2 zs

/-- Feeding a sequence of complete price pairs to the strategy: the state
after running `KalmanPairStrategy.on_tick` on each pair in turn. -/
noncomputable def strategyRun (p : KalmanParams) (st : KalmanState) :
    List (ℚ × ℚ) → KalmanState
  | [] => st
  | yx :: rest => strategyRun p (on_tickFull p st (some yx.1, some yx.2)).state rest

/-! ### Helper lemmas -/

/-- On a complete tick, `on_tick` writes the posterior mean and covariance
of the numeric step into the state, on both sides of the `S <= 0` check. -/
theorem on_tickFull_state (p : KalmanParams) (st : KalmanState) (y x : ℚ) :
    ((on_tickFull p st (some y, some x)).state.state_mean =
        (kalmanUpdate p st y x).state_mean) ∧
      ((on_tickFull p st (some y, some x)).state.state_cov =
        (kalmanUpdate p st y x).state_cov) := by
  simp only [on_tickFull]
  split <;> exact ⟨rfl, rfl⟩

/-- Nonnegativity of the quadratic form of a PSD 2x2 matrix at `(1, x)`:
`0 <= a + (b + b) x + d x^2` when `0 <= a`, `0 <= d` and `b^2 <= a d`. -/
theorem quad_form_nonneg (a b d x : ℚ) (ha : 0 ≤ a) (hd : 0 ≤ d)
    (hdet : b * b ≤ a * d) : 0 ≤ a + (b + b) * x + d * x ^ 2 := by
  rcases eq_or_lt_of_le ha with ha0 | ha0
  · have hb : b = 0 := by nlinarith [mul_self_nonneg b]
    subst hb
    nlinarith [mul_nonneg hd (sq_nonneg x)]
  · nlinarith [sq_nonneg (a + b * x), mul_nonneg (sub_nonneg.2 hdet) (sq_nonneg x)]

/-- The algebraic core of the covariance invariant: the posterior
covariance produced by one Kalman step (entries written exactly as
`kalmanUpdate` computes them) is again symmetric PSD, provided the prior
(pre-noise) covariance is symmetric PSD, the process noise is nonnegative
and the measurement noise is positive. -/
theorem psd_update_core (a b d δ R x S : ℚ) (ha : 0 ≤ a) (hd : 0 ≤ d)
    (hdet : b * b ≤ a * d) (hR : 0 < R) (hδ : 0 ≤ δ)
    (hSdef : S = 1 * ((a + δ) * 1 + b * x) + x * (b * 1 + (d + δ) * x) + R) :
    Mat2.PSD
      ⟨(a + δ) - (((a + δ) * 1 + b * x) / S * 1 * (a + δ) +
          ((a + δ) * 1 + b * x) / S * x * b),
        b - (((a + δ) * 1 + b * x) / S * 1 * b +
          ((a + δ) * 1 + b * x) / S * x * (d + δ)),
        b - ((b * 1 + (d + δ) * x) / S * 1 * (a + δ) +
          (b * 1 + (d + δ) * x) / S * x * b),
        (d + δ) - ((b * 1 + (d + δ) * x) / S * 1 * b +
          (b * 1 + (d + δ) * x) / S * x * (d + δ))⟩ := by
  have ha' : 0 ≤ a + δ := add_nonneg ha hδ
  have hd' : 0 ≤ d + δ := add_nonneg hd hδ
  have hdet' : b * b ≤ (a + δ) * (d + δ) := by nlinarith
  have hD : 0 ≤ (a + δ) * (d + δ) - b * b := sub_nonneg.2 hdet'
  have hq : 0 ≤ (a + δ) + (b + b) * x + (d + δ) * x ^ 2 :=
    quad_form_nonneg (a + δ) b (d + δ) x ha' hd' hdet'
  have hS : 0 < S := by rw [hSdef]; nlinarith
  have hS0 : S ≠ 0 := ne_of_gt hS
  refine ⟨?_, ?_, ?_, ?_⟩
  · dsimp only
    field_simp
    ring
  · dsimp only
    have hA : (a + δ) - (((a + δ) * 1 + b * x) / S * 1 * (a + δ) +
        ((a + δ) * 1 + b * x) / S * x * b) =
        ((a + δ) * S - ((a + δ) + b * x) * ((a + δ) + x * b)) / S := by
      field_simp
      ring
    rw [hA]
    apply div_nonneg _ hS.le
    rw [hSdef]
    nlinarith [mul_nonneg hD (sq_nonneg x), mul_nonneg ha' hR.le]
  · dsimp only
    have hDd : (d + δ) - ((b * 1 + (d + δ) * x) / S * 1 * b +
        (b * 1 + (d + δ) * x) / S * x * (d + δ)) =
        ((d + δ) * S - (b + (d + δ) * x) * (b + x * (d + δ))) / S := by
      field_simp
      ring
    rw [hDd]
    apply div_nonneg _ hS.le
    rw [hSdef]
    nlinarith [mul_nonneg hd' hR.le]
  · dsimp only
    rw [← sub_nonneg]
    have h4 : ((a + δ) - (((a + δ) * 1 + b * x) / S * 1 * (a + δ) +
          ((a + δ) * 1 + b * x) / S * x * b)) *
          ((d + δ) - ((b * 1 + (d + δ) * x) / S * 1 * b +
            (b * 1 + (d + δ) * x) / S * x * (d + δ))) -
        (b - (((a + δ) * 1 + b * x) / S * 1 * b +
          ((a + δ) * 1 + b * x) / S * x * (d + δ))) *
        (b - ((b * 1 + (d + δ) * x) / S * 1 * (a + δ) +
          (b * 1 + (d + δ) * x) / S * x * b)) =
        (((a + δ) * (d + δ) - b * b) * S -
          ((a + δ) * (d + δ) - b * b) *
            ((a + δ) + (b + b) * x + (d + δ) * x ^ 2)) / S := by
      field_simp
      ring
    rw [h4]
    apply div_nonneg _ hS.le
    rw [hSdef]
    nlinarith [mul_nonneg hD hR.le]

/-- One Kalman step preserves symmetric positive semi-definiteness of the
covariance, for positive measurement noise and nonnegative process
noise. -/
theorem kalmanUpdate_psd (p : KalmanParams) (st : KalmanState) (y x : ℚ)
    (hR : 0 < p.R) (hδ : 0 ≤ p.delta) (h : st.state_cov.PSD) :
    (kalmanUpdate p st y x).state_cov.PSD := by
  obtain ⟨m, M, pos⟩ := st
  obtain ⟨a, b, c, d⟩ := M
  unfold Mat2.PSD at h
  obtain ⟨hbc, ha, hd, hdet⟩ := h
  dsimp only at hbc ha hd hdet
  subst hbc
  exact psd_update_core a b d p.delta p.R x _ ha hd hdet hR hδ rfl

/-- Running the strategy over any list of complete price pairs preserves
symmetric positive semi-definiteness of the covariance. -/
theorem strategyRun_psd (p : KalmanParams) (hR : 0 < p.R) (hδ : 0 ≤ p.delta) :
    ∀ (l : List (ℚ × ℚ)) (st : KalmanState), st.state_cov.PSD →
      (strategyRun p st l).state_cov.PSD
  | [], _, h => h
  | yx :: rest, st, h => by
    rw [strategyRun]
    refine strategyRun_psd p hR hδ rest _ ?_
    rw [(on_tickFull_state p st yx.1 yx.2).2]
    exact kalmanUpdate_psd p st yx.1 yx.2 hR hδ h

/-! ### Claims -/

/-- Claim C8 (confirmed): when a required price is absent from the tick,
`KalmanPairStrategy.on_tick` is a complete no-op: it returns `None`
(no emission) and leaves `state_mean`, `state_cov` and the position state
untouched (the data-integrity check at the top of `on_tick` returns before
any computation). -/
theorem c8_missing_price_noop (p : KalmanParams) (st : KalmanState) (d : Tick)
    (h : d.1 = none ∨ d.2 = none) :
    on_tickFull p st d = ⟨st, none, none, none⟩ := by
  obtain ⟨y, x⟩ := d
  rcases h with h | h
  · simp only at h; subst h; cases x <;> rfl
  · simp only at h; subst h; cases y <;> rfl

/-- Witness for C8: a concrete tick missing the `leg_1` price is a no-op on
a freshly initialized strategy. -/
theorem c8_missing_price_noop_witness :
    on_tickFull (KalmanPairStrategy.init ⟨none, none, none, none, none⟩).1
        (KalmanPairStrategy.init ⟨none, none, none, none, none⟩).2
        (none, some 5) =
      ⟨(KalmanPairStrategy.init ⟨none, none, none, none, none⟩).2,
        none, none, none⟩ :=
  c8_missing_price_noop _ _ _ (Or.inl rfl)

/-- Claim C4 (confirmed): `RiskManager.check` compares the signal object
itself against strings (`signal == "HOLD"`, `signal not in
allowed_signals`), and a `StrategySignal` object never equals a Python
string, so `check` returns `False` for every signal object whatsoever —
including ones whose `signal_type` is in the allow-list — and consequently
the live engine loop never admits any strategy-emitted signal to the
execution step (the executed subsequence of `liveRun` is always empty). -/
theorem c4_risk_rejects_all_signals :
    (∀ (σ : Type) (s : σ), RiskManager.check (PyVal.sig s) = false) ∧
      (∀ (p : KalmanParams) (st : KalmanState) (ticks : List Tick),
        (liveRun p st ticks).2.2 = []) := by
  refine ⟨fun σ s => rfl, fun p st ticks => ?_⟩
  induction ticks generalizing st with
  | nil => rfl
  | cons t ts ih =>
    rw [liveRun]
    by_cases hr : (t.1.isSome && t.2.isSome) = true
    · rw [if_pos hr]
      cases hsig : (on_tickFull p st t).signal with
      | none => simpa [hsig] using ih _
      | some s =>
        have hc : RiskManager.check (PyVal.sig s) = false := rfl
        simp [hsig, hc, ih _]
    · rw [if_neg hr]
      exact ih _

/-- Claim C9 (confirmed): `RiskManager.check` returns `False` on `None`,
on the bare `"HOLD"` decision, on the empty-string decision, and on every
signal object whose decision kind is outside the allow-list, regardless of
its orders payload; the embedded `check` is a pure function of its
argument (it performs no mutation). -/
theorem c9_risk_gate_boundary :
    @RiskManager.check (StrategySignal ℚ) PyVal.pnone = false ∧
      @RiskManager.check (StrategySignal ℚ) (PyVal.str "HOLD") = false ∧
      @RiskManager.check (StrategySignal ℚ) (PyVal.str "") = false ∧
      (∀ s : StrategySignal ℚ, s.signal_type ∉ RiskManager.allowed_signals →
        RiskManager.check (PyVal.sig s) = false) :=
  ⟨rfl, rfl, rfl, fun _ _ => rfl⟩

/-- Witness for C9: a concrete signal with an unknown decision kind and a
nonempty orders payload is rejected. -/
theorem c9_risk_gate_boundary_witness :
    RiskManager.check
        (PyVal.sig (⟨"LONG_SPREAD_V2", [⟨Leg.leg1, "BUY", (10 : ℚ), "MKT"⟩], none⟩ :
          StrategySignal ℚ)) = false :=
  c9_risk_gate_boundary.2.2.2 _ (by decide)

/-- Counterexample to claim C1 as stated: at a call with innovation
variance `S <= 0` (fresh state, measurement noise configured to `-5`,
prices `y = x = 1`), `on_tick` does produce no signal, but `state_mean`
does NOT retain its prior value: lines 82/86 of `kalman_strategy.py`
overwrite `state_mean` and `state_cov` with the posterior before the
`S <= 0` safety check at line 91 runs. -/
theorem c1_counterexample :
    (kalmanUpdate ⟨2, 1/2, 10, 1/10000, -5⟩ ⟨⟨0, 0⟩, ⟨1, 1, 1, 1⟩, 0⟩ 1 1).S ≤ 0 ∧
      (on_tickFull ⟨2, 1/2, 10, 1/10000, -5⟩ ⟨⟨0, 0⟩, ⟨1, 1, 1, 1⟩, 0⟩
        (some 1, some 1)).signal = none ∧
      (on_tickFull ⟨2, 1/2, 10, 1/10000, -5⟩ ⟨⟨0, 0⟩, ⟨1, 1, 1, 1⟩, 0⟩
        (some 1, some 1)).state.state_mean ≠
        (⟨⟨0, 0⟩, ⟨1, 1, 1, 1⟩, 0⟩ : KalmanState).state_mean := by
  have hS : (kalmanUpdate ⟨2, 1/2, 10, 1/10000, -5⟩ ⟨⟨0, 0⟩, ⟨1, 1, 1, 1⟩, 0⟩ 1 1).S ≤ 0 := by
    norm_num [kalmanUpdate]
  have hred : on_tickFull ⟨2, 1/2, 10, 1/10000, -5⟩ ⟨⟨0, 0⟩, ⟨1, 1, 1, 1⟩, 0⟩
      (some 1, some 1) =
      ⟨⟨(kalmanUpdate ⟨2, 1/2, 10, 1/10000, -5⟩ ⟨⟨0, 0⟩, ⟨1, 1, 1, 1⟩, 0⟩ 1 1).state_mean,
        (kalmanUpdate ⟨2, 1/2, 10, 1/10000, -5⟩ ⟨⟨0, 0⟩, ⟨1, 1, 1, 1⟩, 0⟩ 1 1).state_cov,
        0⟩, none, none, none⟩ := by
    simp only [on_tickFull]
    rw [if_pos hS]
  refine ⟨hS, by rw [hred], ?_⟩
  rw [hred]
  simp only [kalmanUpdate]
  intro hEq
  have h0 := congrArg Vec2.x0 hEq
  norm_num at h0

/-- Claim C1, amended (what the code actually guarantees on a degenerate
update): when `S <= 0`, `on_tick` returns `None` — no signal is produced,
the caller does not trade, and the position is unchanged — but
`state_mean` and `state_cov` do not retain their prior values: they have
already been overwritten with the posterior of the numeric step before the
check runs. -/
theorem c1_degenerate_rejects_but_mutates (p : KalmanParams) (st : KalmanState)
    (y x : ℚ) (h : (kalmanUpdate p st y x).S ≤ 0) :
    on_tickFull p st (some y, some x) =
      ⟨⟨(kalmanUpdate p st y x).state_mean, (kalmanUpdate p st y x).state_cov,
        st.position⟩, none, none, none⟩ := by
  simp only [on_tickFull]
  rw [if_pos h]

/-- Witness for the amended C1 at the concrete degenerate call of the
counterexample. -/
theorem c1_degenerate_rejects_but_mutates_witness :
    on_tickFull ⟨2, 1/2, 10, 1/10000, -5⟩ ⟨⟨0, 0⟩, ⟨1, 1, 1, 1⟩, 0⟩
        (some 1, some 1) =
      ⟨⟨(kalmanUpdate ⟨2, 1/2, 10, 1/10000, -5⟩ ⟨⟨0, 0⟩, ⟨1, 1, 1, 1⟩, 0⟩ 1 1).state_mean,
        (kalmanUpdate ⟨2, 1/2, 10, 1/10000, -5⟩ ⟨⟨0, 0⟩, ⟨1, 1, 1, 1⟩, 0⟩ 1 1).state_cov,
        0⟩, none, none, none⟩ :=
  c1_degenerate_rejects_but_mutates _ _ _ _ (by norm_num [kalmanUpdate])

/-- Claim C5 (confirmed): with `entry_threshold = 2.0` and
`exit_threshold = 0.5`, the deviation sequence `[0, 0.1, 2.5, 1.0, 0.3]`
fed tick-by-tick from FLAT yields positions
`[FLAT, FLAT, SHORT_SPREAD, SHORT_SPREAD, FLAT]` (encoded 0 and -1 as in
the source) with exactly two emissions: the entry `ENTRY_SHORT_SPREAD` at
index 2 and the exit `EXIT_ALL` at index 4, for every base quantity and
hedge ratio. -/
theorem c5_entry_exit_hysteresis (qty beta : ℚ) :
    (runDeviations 2 (1/2) qty beta 0 [0, 1/10, 5/2, 1, 3/10]).map
        (fun r => (r.1, r.2.map StrategySignal.signal_type)) =
      [(0, none), (0, none), (-1, some "ENTRY_SHORT_SPREAD"), (-1, none),
        (0, some "EXIT_ALL")] := by
  norm_num [runDeviations, signalStep, abs_of_nonneg, abs_of_nonpos]

/-- Claim C6 (confirmed): from FLAT, any tick with deviation score below
`-entry_threshold` transitions to LONG_SPREAD (position 1) and emits
exactly one signal whose orders are, in this order, BUY `leg_1` with the
base quantity and SELL `leg_2` with quantity `int(base * |hedge_ratio|)`
(truncation toward zero) — never the reverse sides. -/
theorem c6_long_spread_entry {K : Type} [LinearOrderedField K] [FloorRing K]
    (entryT exitT qty z beta : K) (position : ℤ)
    (hpos : position = 0) (hz : z < -entryT) :
    signalStep entryT exitT qty position z beta =
      (some ⟨"ENTRY_LONG_SPREAD",
        [⟨Leg.leg1, "BUY", qty, "MKT"⟩,
         ⟨Leg.leg2, "SELL", ((pyInt (qty * |beta|) : ℤ) : K), "MKT"⟩], none⟩, 1) := by
  subst hpos
  rw [signalStep, if_pos rfl, if_pos hz]

/-- Witness for C6: with thresholds 2/0.5, base quantity 10, deviation
score -3 and hedge ratio 1.5, the strategy enters LONG_SPREAD buying 10 of
`leg_1` and selling `int(10 * 1.5) = 15` of `leg_2`. -/
theorem c6_long_spread_entry_witness :
    signalStep (2 : ℚ) (1/2) 10 0 (-3) (3/2) =
      (some ⟨"ENTRY_LONG_SPREAD",
        [⟨Leg.leg1, "BUY", 10, "MKT"⟩, ⟨Leg.leg2, "SELL", 15, "MKT"⟩], none⟩, 1) := by
  rw [@c6_long_spread_entry ℚ _ _ 2 (1/2) 10 (-3) (3/2) 0 rfl (by norm_num)]
  norm_num [pyInt, abs_of_nonneg]

/-- Claim C2 (confirmed): with both required prices present and
`H = [1, x_price]`, one call of `on_tick` computes the prior covariance
`P' = state_cov + Q` (`Q = delta * I`), `predicted_y = H . state_mean`,
`raw_error = y_price - predicted_y`, `S = H . P' . H^T + R`, the gain
`K = P' . H^T / S`, writes posterior mean `= prior mean + K * raw_error`
and posterior covariance `= P' - outer(K, H) . P'` into the state, and,
when `S > 0`, reports `deviation_score = raw_error / sqrt(S)` and
`hedge_ratio` equal to the slope component (index 1) of the posterior
mean. -/
theorem c2_kalman_update_equations (p : KalmanParams) (st : KalmanState) (y x : ℚ) :
    (kalmanUpdate p st y x).state_cov_prior =
      ⟨st.state_cov.a + p.delta, st.state_cov.b, st.state_cov.c,
        st.state_cov.d + p.delta⟩ ∧
      (kalmanUpdate p st y x).y_hat = st.state_mean.x0 + st.state_mean.x1 * x ∧
      (kalmanUpdate p st y x).error =
        y - (st.state_mean.x0 + st.state_mean.x1 * x) ∧
      (kalmanUpdate p st y x).S =
        (st.state_cov.a + p.delta) + (st.state_cov.b + st.state_cov.c) * x +
          (st.state_cov.d + p.delta) * x ^ 2 + p.R ∧
      (kalmanUpdate p st y x).K.x0 =
        ((st.state_cov.a + p.delta) + st.state_cov.b * x) /
          (kalmanUpdate p st y x).S ∧
      (kalmanUpdate p st y x).K.x1 =
        (st.state_cov.c + (st.state_cov.d + p.delta) * x) /
          (kalmanUpdate p st y x).S ∧
      (kalmanUpdate p st y x).state_mean.x0 =
        st.state_mean.x0 +
          (kalmanUpdate p st y x).K.x0 * (kalmanUpdate p st y x).error ∧
      (kalmanUpdate p st y x).state_mean.x1 =
        st.state_mean.x1 +
          (kalmanUpdate p st y x).K.x1 * (kalmanUpdate p st y x).error ∧
      (kalmanUpdate p st y x).state_cov.a =
        (kalmanUpdate p st y x).state_cov_prior.a -
          (kalmanUpdate p st y x).K.x0 *
            ((kalmanUpdate p st y x).state_cov_prior.a +
              x * (kalmanUpdate p st y x).state_cov_prior.c) ∧
      (kalmanUpdate p st y x).state_cov.b =
        (kalmanUpdate p st y x).state_cov_prior.b -
          (kalmanUpdate p st y x).K.x0 *
            ((kalmanUpdate p st y x).state_cov_prior.b +
              x * (kalmanUpdate p st y x).state_cov_prior.d) ∧
      (kalmanUpdate p st y x).state_cov.c =
        (kalmanUpdate p st y x).state_cov_prior.c -
          (kalmanUpdate p st y x).K.x1 *
            ((kalmanUpdate p st y x).state_cov_prior.a +
              x * (kalmanUpdate p st y x).state_cov_prior.c) ∧
      (kalmanUpdate p st y x).state_cov.d =
        (kalmanUpdate p st y x).state_cov_prior.d -
          (kalmanUpdate p st y x).K.x1 *
            ((kalmanUpdate p st y x).state_cov_prior.b +
              x * (kalmanUpdate p st y x).state_cov_prior.d) ∧
      (on_tickFull p st (some y, some x)).state.state_mean =
        (kalmanUpdate p st y x).state_mean ∧
      (on_tickFull p st (some y, some x)).state.state_cov =
        (kalmanUpdate p st y x).state_cov ∧
      (0 < (kalmanUpdate p st y x).S →
        (on_tickFull p st (some y, some x)).z =
          some (((kalmanUpdate p st y x).error : ℝ) /
            Real.sqrt (((kalmanUpdate p st y x).S : ℚ) : ℝ)) ∧
        (on_tickFull p st (some y, some x)).beta =
          some (kalmanUpdate p st y x).state_mean.x1) := by
  refine ⟨rfl, ?_, ?_, ?_, ?_, ?_, ?_, ?_, ?_, ?_, ?_, ?_,
    (on_tickFull_state p st y x).1, (on_tickFull_state p st y x).2, fun hS => ?zfinal⟩
  case zfinal =>
    simp only [on_tickFull]
    rw [if_neg (not_le.2 hS)]
    exact ⟨rfl, rfl⟩
  all_goals simp only [kalmanUpdate]
  all_goals try ring

/-- Witness for C2 at a concrete non-degenerate call (default
configuration, fresh state, prices `y = x = 1`). -/
theorem c2_kalman_update_equations_witness :
    0 < (kalmanUpdate (KalmanPairStrategy.init ⟨none, none, none, none, none⟩).1
        (KalmanPairStrategy.init ⟨none, none, none, none, none⟩).2 1 1).S ∧
      (on_tickFull (KalmanPairStrategy.init ⟨none, none, none, none, none⟩).1
          (KalmanPairStrategy.init ⟨none, none, none, none, none⟩).2
          (some 1, some 1)).z =
        some (((kalmanUpdate (KalmanPairStrategy.init ⟨none, none, none, none, none⟩).1
            (KalmanPairStrategy.init ⟨none, none, none, none, none⟩).2 1 1).error : ℝ) /
          Real.sqrt (((kalmanUpdate (KalmanPairStrategy.init ⟨none, none, none, none, none⟩).1
            (KalmanPairStrategy.init ⟨none, none, none, none, none⟩).2 1 1).S : ℚ) : ℝ)) := by
  have hS : 0 < (kalmanUpdate (KalmanPairStrategy.init ⟨none, none, none, none, none⟩).1
      (KalmanPairStrategy.init ⟨none, none, none, none, none⟩).2 1 1).S := by
    norm_num [kalmanUpdate, KalmanPairStrategy.init]
  exact ⟨hS, ((c2_kalman_update_equations _ _ 1 1).2.2.2.2.2.2.2.2.2.2.2.2.2.2 hS).1⟩

/-- Claim C3 (confirmed): starting from the freshly initialized estimator
(`state_cov = ones((2,2))`), for every sequence of valid price pairs
(`y > 0`, `x > 0`) and every configuration with positive measurement noise
and nonnegative process noise, `state_cov` is a symmetric
positive-semi-definite 2x2 matrix after every update, in exact arithmetic
(the statement quantifies over all sequences, so it covers every prefix,
i.e. the state after each individual update). -/
theorem c3_covariance_psd (ps : PyParams) (l : List (ℚ × ℚ))
    (hR : 0 < (KalmanPairStrategy.init ps).1.R)
    (hδ : 0 ≤ (KalmanPairStrategy.init ps).1.delta)
    (_hvalid : ∀ yx ∈ l, 0 < yx.1 ∧ 0 < yx.2) :
    (strategyRun (KalmanPairStrategy.init ps).1
      (KalmanPairStrategy.init ps).2 l).state_cov.PSD := by
  refine strategyRun_psd _ hR hδ l _ ?_
  exact ⟨rfl, by norm_num [KalmanPairStrategy.init],
    by norm_num [KalmanPairStrategy.init], by norm_num [KalmanPairStrategy.init]⟩

/-- Witness for C3: two valid concrete ticks under the default
configuration. -/
theorem c3_covariance_psd_witness :
    (∀ yx ∈ [((1 : ℚ), (2 : ℚ)), (3, 4)], 0 < yx.1 ∧ 0 < yx.2) ∧
      (strategyRun (KalmanPairStrategy.init ⟨none, none, none, none, none⟩).1
        (KalmanPairStrategy.init ⟨none, none, none, none, none⟩).2
        [(1, 2), (3, 4)]).state_cov.PSD := by
  have hv : ∀ yx ∈ [((1 : ℚ), (2 : ℚ)), (3, 4)], 0 < yx.1 ∧ 0 < yx.2 := by
    intro yx h
    simp only [List.mem_cons, List.not_mem_nil, or_false] at h
    rcases h with rfl | rfl <;> constructor <;> norm_num
  exact ⟨hv, c3_covariance_psd _ _ (by norm_num [KalmanPairStrategy.init])
    (by norm_num [KalmanPairStrategy.init]) hv⟩

/-- Claim C7 (confirmed): for every fixed price series in which every tick
carries both required prices (the historical driver's aligned universe is
complete by construction), replaying the series through
`BacktestEngine.run`'s event loop and feeding the identical series
tick-by-tick through `TradingEngine.on_tick`'s pipeline, with the same
configuration and initial state, yields the identical sequence of
`StrategySignal` emissions (same decision kinds, orders and metadata,
element for element) and the identical final estimator/state-machine
state: both drivers delegate every tick to the same
`KalmanPairStrategy.on_tick`. -/
theorem c7_backtest_live_parity (p : KalmanParams) (st : KalmanState)
    (ticks : List Tick) (hc : ∀ t ∈ ticks, t.1.isSome ∧ t.2.isSome) :
    (btRun p st ticks).2 = (liveRun p st ticks).2.1 ∧
      (btRun p st ticks).1 = (liveRun p st ticks).1 := by
  induction ticks generalizing st with
  | nil => exact ⟨rfl, rfl⟩
  | cons t ts ih =>
    have ht := hc t (List.mem_cons_self t ts)
    have hts : ∀ t' ∈ ts, t'.1.isSome ∧ t'.2.isSome :=
      fun t' h' => hc t' (List.mem_cons_of_mem t h')
    have hr : (t.1.isSome && t.2.isSome) = true := by
      rw [ht.1, ht.2]; rfl
    obtain ⟨h1, h2⟩ := ih (on_tickFull p st t).state hts
    rw [btRun, liveRun, if_pos hr]
    cases hsig : (on_tickFull p st t).signal with
    | none => simp [hsig, h1, h2]
    | some s => simp [hsig, h1, h2]

/-- Witness for C7 at a concrete complete two-tick series under the
default configuration. -/
theorem c7_backtest_live_parity_witness :
    (btRun (KalmanPairStrategy.init ⟨none, none, none, none, none⟩).1
        (KalmanPairStrategy.init ⟨none, none, none, none, none⟩).2
        [(some 1, some 2), (some 3, some 4)]).2 =
      (liveRun (KalmanPairStrategy.init ⟨none, none, none, none, none⟩).1
        (KalmanPairStrategy.init ⟨none, none, none, none, none⟩).2
        [(some 1, some 2), (some 3, some 4)]).2.1 :=
  (c7_backtest_live_parity _ _ _ (by
    intro t h
    simp only [List.mem_cons, List.not_mem_nil, or_false] at h
    rcases h with rfl | rfl <;> exact ⟨rfl, rfl⟩)).1

/-- Counterexample to claim C10 as stated: a configuration with
`exit_z = 3 >= entry_z = 2` does not abort startup —
`KalmanPairStrategy.__init__` performs no threshold validation, the
strategy object is constructed with exactly those thresholds, and it runs:
on a FLAT tick with deviation score 2.5 it enters a short spread. -/
theorem c10_counterexample :
    (KalmanPairStrategy.init ⟨some 2, some 3, none, none, none⟩).1.entry_threshold = 2 ∧
      (KalmanPairStrategy.init ⟨some 2, some 3, none, none, none⟩).1.exit_threshold = 3 ∧
      (signalStep
        ((KalmanPairStrategy.init ⟨some 2, some 3, none, none, none⟩).1.entry_threshold)
        ((KalmanPairStrategy.init ⟨some 2, some 3, none, none, none⟩).1.exit_threshold)
        ((KalmanPairStrategy.init ⟨some 2, some 3, none, none, none⟩).1.qty)
        0 (5/2 : ℚ) 1).2 = -1 := by
  refine ⟨rfl, rfl, ?_⟩
  norm_num [KalmanPairStrategy.init, signalStep]

/-- Claim C10, amended (what the code actually guarantees): the historical
driver does reject a run with entirely missing instrument data
(`BacktestEngine.run` aborts with no result as soon as any required key
fails to load, rather than producing an empty run); but the live driver
merely skips silently while required prices are missing (no processing, no
emission, no error), and no threshold validation exists anywhere: the
strategy constructor accepts any configuration — including
`exit_threshold >= entry_threshold` — verbatim and runs with it. -/
theorem c10_config_error_handling :
    (∀ (p : KalmanParams) (st : KalmanState) (store : String → Option (List ℚ))
        (keys : List String) (align : List (String × List ℚ) → List Tick)
        (k : String), k ∈ keys → store k = none →
        BacktestEngine.run p st store keys align = none) ∧
      (∀ ps : PyParams,
        (KalmanPairStrategy.init ps).1.entry_threshold = ps.entry_z.getD 2 ∧
          (KalmanPairStrategy.init ps).1.exit_threshold = ps.exit_z.getD (1/2)) ∧
      (∀ (p : KalmanParams) (st : KalmanState) (ticks : List Tick),
        (∀ t ∈ ticks, t.1 = none ∨ t.2 = none) →
        liveRun p st ticks = (st, [], [])) := by
  refine ⟨?_, fun ps => ⟨rfl, rfl⟩, ?_⟩
  · intro p st store keys align k hk hnone
    have hload : BacktestEngine.loadAll store keys = none := by
      induction keys with
      | nil => cases hk
      | cons k' ks ih =>
        rw [BacktestEngine.loadAll]
        rcases List.mem_cons.1 hk with rfl | hk'
        · rw [hnone]
        · cases hsk : store k' with
          | none => rfl
          | some df => rw [ih hk']; rfl
    rw [BacktestEngine.run, hload]
  · intro p st ticks hmiss
    induction ticks with
    | nil => rfl
    | cons t ts ih =>
      have hnr : (t.1.isSome && t.2.isSome) = false := by
        rcases hmiss t (List.mem_cons_self t ts) with h | h <;>
          rw [h] <;> simp
      rw [liveRun, hnr]
      exact ih fun t' h' => hmiss t' (List.mem_cons_of_mem t h')

/-- Witness for the amended C10: a store with no data for the single
required key makes the backtest abort; a live series whose ticks all lack
a required price is a silent no-op. -/
theorem c10_config_error_handling_witness :
    BacktestEngine.run (KalmanPairStrategy.init ⟨none, none, none, none, none⟩).1
        (KalmanPairStrategy.init ⟨none, none, none, none, none⟩).2
        (fun _ => none) ["ASSET_A"] (fun _ => []) = none ∧
      liveRun (KalmanPairStrategy.init ⟨none, none, none, none, none⟩).1
        (KalmanPairStrategy.init ⟨none, none, none, none, none⟩).2
        [(none, some 1)] =
      ((KalmanPairStrategy.init ⟨none, none, none, none, none⟩).2, [], []) :=
  ⟨c10_config_error_handling.1 _ _ _ _ _ "ASSET_A" (List.mem_singleton.2 rfl) rfl,
    c10_config_error_handling.2.2 _ _ _ (by
      intro t h
      simp only [List.mem_singleton] at h
      subst h
      exact Or.inl rfl)⟩

end Bluegrey
